import Mathlib

/-!
# Verification of the SSB demo benchmark core

A shallow embedding, in Lean 4, of the combinatorial query-generation and
batch-execution core of the `demo-ssb` Go repository, together with proofs
of the specification claims about it.

Embedding conventions:
* Go `int` values that are nonnegative at every use site (iteration indices,
  dimension cardinalities, batch sizes, counts) are embedded as `Nat`;
  Go division/modulus agree with `Nat` division/modulus on nonnegative
  operands.  Argument-grid values, which are only stored and printed, are
  embedded as `Int`.
* `fmt.Sprintf` with `%d` verbs is embedded by an explicit renderer
  (`renderFmt`) that also reproduces Go's `%!d(MISSING)` /
  `%!(EXTRA int=..)` behaviour for argument-count mismatches.
* The concurrent pipeline of `RunSumMultiBatch` (producer goroutine,
  worker pool, collector loop) is embedded as explicit pure functions:
  the producer is the function `produceFrom` / `produceBatches`, a worker
  step is `runRawSumBatchQueryStep`, the collector loop is `collectLoop`,
  and `RunSumMultiBatchModel` composes them in a sequential serialization
  of the channel traffic (batches arrive at the collector in production
  order).  Wall-clock time is a parameter `elapsed`; the results file is
  the returned list of written lines.
* The external Pilosa client call `s.Client.Query` is a parameter
  `exec : String → Except String (List Int)`, returning either an error or
  the ordered list of `Sum` results of a compound request, matching the
  Go contract that a non-nil error comes with a nil response.
-/

/-- Embeds Go `arange(start, stop, step)`: the slice `[start, start+step, ...)`
of values below `stop`.  The Go loop does not terminate for `step ≤ 0` with
`start < stop`; the catalogue only ever calls it with `step = 1`, and the
embedding returns `[]` for a nonpositive step. -/
def arange (start stop step : Int) : List Int :=
  if _h : 0 < step ∧ start < stop then
    start :: arange (start + step) stop step
  else []
termination_by (stop - start).toNat
decreasing_by omega

/-- Embeds Go `UnravelIndex`'s loop body: component `n` is
`(index1 / denom) % dim[n]` where `denom` is the product of the dimensions
before `n`. -/
def unravelAux (index1 : Nat) : Nat → List Nat → List Nat
  | _, [] => []
  | denom, d :: ds => (index1 / denom) % d :: unravelAux index1 (denom * d) ds

/-- Embeds Go `UnravelIndex(index1, dim)`: generates an N-dimensional index
from a 1-dimensional index; component 0 cycles fastest. -/
def UnravelIndex (index1 : Nat) (dim : List Nat) : List Nat :=
  unravelAux index1 1 dim

/-- The claim-side re-encoding of a multi-index through the dimension
strides: `ravelIndex idx dim = idx₀ + dim₀ * (idx₁ + dim₁ * (...))`, i.e.
`Σₖ idxₖ * Πⱼ<ₖ dimⱼ`. -/
def ravelIndex : List Nat → List Nat → Nat
  | i :: is, d :: ds => i + d * ravelIndex is ds
  | _, _ => 0

/-- Simplified form of `UnravelIndex` used in proofs: dividing the running
denominator out once per step. -/
def unravelSimple : Nat → List Nat → List Nat
  | _, [] => []
  | i, d :: ds => i % d :: unravelSimple (i / d) ds

/-! ## The `fmt.Sprintf` model for `%d` formats

The catalogue templates use only the `%d` verb.  `renderFmt` substitutes the
arguments into the `%d` slots in order; as in Go, surplus verbs render as
`%!d(MISSING)` and surplus arguments are appended as `%!(EXTRA int=v, ...)`.
-/

/-- The items inside Go's `%!(EXTRA ...)` marker: `int=v` separated by
comma-space. -/
def extraItems : List Int → List Char
  | [] => []
  | [a] => ("int=" ++ toString a).data
  | a :: as => ("int=" ++ toString a ++ ", ").data ++ extraItems as

/-- Go appends `%!(EXTRA type=value, ...)` when `Sprintf` receives more
arguments than the format consumes (and nothing when none are left over). -/
def extraMark (args : List Int) : List Char :=
  if args.isEmpty then [] else "%!(EXTRA ".data ++ extraItems args ++ ")".data

/-- Character-level model of `fmt.Sprintf` restricted to `%d` verbs. -/
def renderFmt : List Char → List Int → List Char
  | [], args => extraMark args
  | [c], args => c :: renderFmt [] args
  | c1 :: c2 :: rest, args =>
    if c1 = '%' ∧ c2 = 'd' then
      match args with
      | a :: args' => (toString a).data ++ renderFmt rest args'
      | [] => "%!d(MISSING)".data ++ renderFmt rest []
    else c1 :: renderFmt (c2 :: rest) args

/-- Number of `%d` substitution slots in a format string (the claim's
"substitution slot count"). -/
def countVerbs : List Char → Nat
  | [] => 0
  | [_] => 0
  | c1 :: c2 :: rest =>
    if c1 = '%' ∧ c2 = 'd' then countVerbs rest + 1
    else countVerbs (c2 :: rest)

/-! ## Data model -/

/-- Embeds the Go `BenchmarkResult` struct.  `Seconds` (Go `float64`) is
embedded as `Int`: the code only ever stores a nonnegative measured elapsed
time or the failure sentinel `-1`. -/
structure BenchmarkResult where
  Name : String
  Iterations : Nat
  Concurrency : Nat
  BatchSize : Nat
  Seconds : Int
  ColumnCount : Nat
  Timestamp : Int
deriving DecidableEq, Repr

/-- Embeds the Go `QuerySet` struct. -/
structure QuerySet where
  Name : String
  Format : String
  ArgSets : List (List Int)
  setup : String
  teardown : String
  dim : Nat
  iterations : Nat
  lengths : List Nat
deriving DecidableEq, Repr

/-- Embeds the Go `QueryResult` struct.  `inputs`/`outputs` are
`[]interface{}` holding ints in the code; `outputs` starts as a single nil
slot, hence `List (Option Int)`. -/
structure QueryResult where
  raw : String
  inputs : List Int
  outputs : List (Option Int)
  err : Option String
deriving DecidableEq, Repr

/-- Embeds Go `NewQuerySet`: stores the arguments and derives `dim`, the
per-dimension `lengths`, and `iterations` as the running product of the
grid sizes.  There is no validation of any kind. -/
def NewQuerySet (name fmtStr : String) (argsets : List (List Int)) : QuerySet where
  Name := name
  Format := fmtStr
  ArgSets := argsets
  setup := ""
  teardown := ""
  dim := argsets.length
  iterations := argsets.foldl (fun acc s => acc * s.length) 1
  lengths := argsets.map List.length

/-- Embeds Go `NewRegisterQuerySet`: `NewQuerySet` plus setup/teardown. -/
def NewRegisterQuerySet (name fmtStr setup teardown : String)
    (argsets : List (List Int)) : QuerySet :=
  { NewQuerySet name fmtStr argsets with setup := setup, teardown := teardown }

/-- The argument-selection loop shared by Go `QueryN` and `QueryResultN`:
`args[k] = ArgSets[k][inds[k]]` for `k < dim`, `inds = UnravelIndex n lengths`. -/
def queryArgs (s : QuerySet) (n : Nat) : List Int :=
  let inds := UnravelIndex n s.lengths
  (List.range s.dim).map fun k => (s.ArgSets.getD k []).getD (inds.getD k 0) 0

/-- Embeds Go `QueryN`: renders the `n`-th query of a `QuerySet` as raw
query text, `Sprintf(Format+"\n", args...)`. -/
def QueryN (s : QuerySet) (n : Nat) : String :=
  String.mk (renderFmt (s.Format ++ "\n").data (queryArgs s n))

/-- Embeds Go `QueryResultN`: the `n`-th query as a `QueryResult` carrying
the input tuple, the rendered text, one empty output slot, and no error. -/
def QueryResultN (s : QuerySet) (n : Nat) : QueryResult where
  raw := String.mk (renderFmt (s.Format ++ "\n").data (queryArgs s n))
  inputs := queryArgs s n
  outputs := [none]
  err := none

/-- `queryArgs` of a constructed `QuerySet`, written over the grid list
alone (proof-side reformulation). -/
def pickArgs (L : List (List Int)) (n : Nat) : List Int :=
  (List.range L.length).map fun k =>
    (L.getD k []).getD ((unravelSimple n (L.map List.length)).getD k 0) 0

/-! ## Batch producer (C3)

The producer goroutine of `RunSumMultiBatch` loops `n` from `0` to
`qs.iterations - 1`, appending `QueryResultN(n)` to the current `qBatch`;
each time `batchCount` reaches `batchSize` it sends the batch and starts a
fresh one, sends the leftover partial batch (if nonempty) after the loop,
and then closes the channel.  `produceFromAux` embeds the loop with the
remaining trip count `qs.iterations - n` made explicit as structural fuel;
the returned list is the complete sequence of batches sent before the
channel is closed.
-/

def produceFromAux (qs : QuerySet) (batchSize : Nat) :
    Nat → Nat → List QueryResult → Nat → List (List QueryResult)
  | 0, _, qBatch, batchCount => if 0 < batchCount then [qBatch] else []
  | remaining + 1, n, qBatch, batchCount =>
    let qq := QueryResultN qs n
    if batchCount + 1 = batchSize then
      (qBatch ++ [qq]) :: produceFromAux qs batchSize remaining (n + 1) [] 0
    else
      produceFromAux qs batchSize remaining (n + 1) (qBatch ++ [qq]) (batchCount + 1)

/-- The batches sent by the producer goroutine of `RunSumMultiBatch`. -/
def produceBatches (qs : QuerySet) (batchSize : Nat) : List (List QueryResult) :=
  produceFromAux qs batchSize qs.iterations 0 [] 0

/-! ## Worker pool, collector, and the run pipeline (C4, C5, C7) -/

/-- The compound request text: the worker's concatenation loop
`raw := ""; for _, q := range batch { raw += q.raw }`. -/
def batchRaw (batch : List QueryResult) : String :=
  batch.foldl (fun raw q => raw ++ q.raw) ""

/-- One iteration of the worker loop of `runRawSumBatchQuery` on a single
batch: build the compound request, send it once, and either emit the error
record or zip the returned sums onto the batch records and emit those.
Returns the records sent on the results channel, paired with whether the
goroutine then panics.

On a failed request the Go code sends one error record and then — lacking a
`continue` — still ranges over `response.Results()`; the error comes with a
nil response, whose `Results()` dereference panics, so no further record is
emitted.  On success, `for n, res := range response.Results()` attaches
result `n` to `batch[n]` and emits it: with more results than records the
`batch[n]` indexing panics after all records were emitted, with fewer
results the remaining records are simply never emitted. -/
def runRawSumBatchQueryStep (exec : String → Except String (List Int))
    (batch : List QueryResult) : List QueryResult × Bool :=
  let raw := batchRaw batch
  match exec raw with
  | Except.error e =>
    ([{ raw := raw, inputs := [], outputs := [], err := some e }], true)
  | Except.ok sums =>
    ((batch.zip sums).map fun p => { p.1 with outputs := [some p.2] },
      decide (batch.length < sums.length))

/-- Go `fmt.Sprintf("%v", ...)` of an output slot (`interface{}` holding an
int, or nil). -/
def fmtOutput : Option Int → String
  | some v => toString v
  | none => "<nil>"

/-- Go `fmt.Sprintf("%v", inputs)` of the `[]interface{}` input tuple. -/
def fmtInputs (inputs : List Int) : String :=
  "[" ++ String.intercalate " " (inputs.map toString) ++ "]"

/-- The line the collector writes for one completed record:
`fmt.Sprintf("%v %v\n", res.outputs[0], res.inputs)` (in the pipeline
`outputs` always holds exactly one slot). -/
def formatLine (r : QueryResult) : String :=
  fmtOutput (r.outputs.getD 0 none) ++ " " ++ fmtInputs r.inputs ++ "\n"

/-- The collector loop of `RunSumMultiBatch` over the records it receives,
in arrival order: at the first error-carrying record it stops (the Go code
returns the failure sentinel immediately, draining nothing further);
otherwise it appends the record's line to the results file.  Returns the
lines written and the aborting error, if any. -/
def collectLoop : List QueryResult → List String × Option String
  | [] => ([], none)
  | r :: rest =>
    match r.err with
    | some e => ([], some e)
    | none =>
      let rec' := collectLoop rest
      (formatLine r :: rec'.1, rec'.2)

/-- All records sent on the results channel during a run, with the
concurrent workers' traffic serialized in batch production order (the
collector's conclusions below do not depend on this order). -/
def pipelineRecords (exec : String → Except String (List Int))
    (qs : QuerySet) (batchSize : Nat) : List QueryResult :=
  ((produceBatches qs batchSize).map
    (fun batch => (runRawSumBatchQueryStep exec batch).1)).flatten

/-- Sequential model of `RunSumMultiBatch`: create the results file
(modeled as always succeeding), start the producer, run the setup query if
any, run the workers over the batches, drain the results in the collector
loop, and finally run the teardown query if any.  `elapsed` stands for the
measured wall-clock seconds, `timestamp` for `time.Now().Unix()`, and
`numLineOrders` for `s.NumLineOrders`; the second component is the list of
lines written to the results file. -/
def RunSumMultiBatchModel (exec : String → Except String (List Int))
    (numLineOrders : Nat) (elapsed : Int) (timestamp : Int)
    (qs : QuerySet) (concurrency batchSize : Nat) :
    BenchmarkResult × List String :=
  let failResult : BenchmarkResult :=
    { Name := qs.Name, Iterations := 0, Concurrency := 0, BatchSize := 0,
      Seconds := -1, ColumnCount := 0, Timestamp := timestamp }
  let runAfterSetup : BenchmarkResult × List String :=
    let collected := collectLoop (pipelineRecords exec qs batchSize)
    match collected.2 with
    | some _ => (failResult, collected.1)
    | none =>
      let okResult : BenchmarkResult :=
        { Name := qs.Name, Iterations := qs.iterations,
          Concurrency := concurrency, BatchSize := batchSize,
          Seconds := elapsed, ColumnCount := numLineOrders,
          Timestamp := timestamp }
      if qs.teardown ≠ "" then
        match exec qs.teardown with
        | Except.error _ => (failResult, collected.1)
        | Except.ok _ => (okResult, collected.1)
      else (okResult, collected.1)
  if qs.setup ≠ "" then
    match exec qs.setup with
    | Except.error _ => (failResult, [])
    | Except.ok _ => runAfterSetup
  else runAfterSetup

/-! ## Sweep driver (C8) -/

/-- The grid sweep loop of `HandleQuery` (`qtype == "grid"`): for each
concurrency (outer loop) and each batch size (inner loop), run one full
`RunSumMultiBatch` pass and append its summary. -/
def sweepGrid (run : Nat → Nat → BenchmarkResult)
    (concurrencies batchSizes : List Nat) : List BenchmarkResult :=
  concurrencies.foldl
    (fun results c =>
      batchSizes.foldl (fun results b => results ++ [run c b]) results)
    []

/-- The concurrency grid hard-coded in `HandleQuery`. -/
def gridConcurrencies : List Nat := [8, 16, 32]

/-- The batch-size grid hard-coded in `HandleQuery`. -/
def gridBatchSizes : List Nat := [2, 4, 8]

/-- The grid branch of `HandleQuery`, over the modeled run. -/
def HandleQueryGrid (exec : String → Except String (List Int))
    (nlo : Nat) (el ts : Int) (qs : QuerySet) : List BenchmarkResult :=
  sweepGrid (fun c b => (RunSumMultiBatchModel exec nlo el ts qs c b).1)
    gridConcurrencies gridBatchSizes

/-! ## The query catalogue and `getQuerySet` (C9)

The Go `nations` local variables of the catalogue cases are named
`nationsA` here to avoid shadowing the `nations` map.
-/

/-- The `nations` map of the source (name to nation ID). -/
def nations : List (String × Int) := [
  ("CANADA", 0),
  ("ARGENTINA", 1),
  ("BRAZIL", 2),
  ("UNITED STATES", 3),
  ("PERU", 4),
  ("ETHIOPIA", 5),
  ("ALGERIA", 6),
  ("KENYA", 7),
  ("MOZAMBIQUE", 8),
  ("MOROCCO", 9),
  ("INDIA", 10),
  ("INDONESIA", 11),
  ("CHINA", 12),
  ("VIETNAM", 13),
  ("JAPAN", 14),
  ("ROMANIA", 15),
  ("RUSSIA", 16),
  ("FRANCE", 17),
  ("UNITED KINGDOM", 18),
  ("GERMANY", 19),
  ("SAUDI ARABIA", 20),
  ("JORDAN", 21),
  ("IRAN", 22),
  ("IRAQ", 23),
  ("EGYPT", 24)]

/-- Go map indexing `nations[k]` (zero value `0` for a missing key). -/
def nationsLookup (k : String) : Int :=
  ((nations.find? fun p => p.1 == k).map Prod.snd).getD 0

/-- Catalogue entry `"1.1"` of `getQuerySet`. -/
def catalogueEntry_1_1 : QuerySet :=
  let years := ([1993] : List Int)
  NewQuerySet "1.1"
    "Sum(\n\tIntersect(\n\t\tBitmap(frame=\"lo_year\", rowID=%d),\n\t\tRange(frame=\"lo_discount\", lo_discount >= 1),\n\t\tRange(frame=\"lo_discount\", lo_discount <= 3),\n\t\tRange(frame=\"lo_quantity\", lo_quantity < 25)\n\t),\nframe=\"lo_revenue_computed\", field=\"lo_revenue_computed\")"
    [years]

/-- Catalogue entry `"1.2"` of `getQuerySet`. -/
def catalogueEntry_1_2 : QuerySet :=
  let years := ([1994] : List Int)
  NewQuerySet "1.2"
    "Sum(\n\tIntersect(\n\t\tBitmap(frame=\"lo_month\", rowID=0),\n\t\tBitmap(frame=\"lo_year\", rowID=%d),\n\t\tRange(frame=\"lo_discount\", lo_discount >= 4),\n\t\tRange(frame=\"lo_discount\", lo_discount <= 6),\n\t\tRange(frame=\"lo_quantity\", lo_quantity >= 26),\n\t\tRange(frame=\"lo_quantity\", lo_quantity <= 35)\n\t),\nframe=\"lo_revenue_computed\", field=\"lo_revenue_computed\")"
    [years]

/-- Catalogue entry `"1.3"` of `getQuerySet`. -/
def catalogueEntry_1_3 : QuerySet :=
  let years := ([1994] : List Int)
  NewQuerySet "1.3"
    "Sum(\n\tIntersect(\n\t\tBitmap(frame=\"lo_weeknum\", rowID=6),\n\t\tBitmap(frame=\"lo_year\", rowID=%d),\n\t\tRange(frame=\"lo_discount\", lo_discount >= 5),\n\t\tRange(frame=\"lo_discount\", lo_discount <= 7),\n\t\tRange(frame=\"lo_quantity\", lo_quantity >= 26),\n\t\tRange(frame=\"lo_quantity\", lo_quantity <= 35)\n\t),\nframe=\"lo_revenue_computed\", field=\"lo_revenue_computed\")"
    [years]

/-- Catalogue entry `"1.1b"` of `getQuerySet`. -/
def catalogueEntry_1_1b : QuerySet :=
  let years := ([1993] : List Int)
  NewQuerySet "1.1b"
    "Sum(\n\tIntersect(\n\t\tBitmap(frame=\"lo_year\", rowID=%d),\n\t\tUnion(\n\t\t\tBitmap(frame=lo_discount_b, rowID=1),\n\t\t\tBitmap(frame=lo_discount_b, rowID=2),\n\t\t\tBitmap(frame=lo_discount_b, rowID=3)),\n\t\tUnion(\n\t\t\tBitmap(frame=lo_quantity_b, rowID=1),\n\t\t\tBitmap(frame=lo_quantity_b, rowID=2),\n\t\t\tBitmap(frame=lo_quantity_b, rowID=3),\n\t\t\tBitmap(frame=lo_quantity_b, rowID=4),\n\t\t\tBitmap(frame=lo_quantity_b, rowID=5),\n\t\t\tBitmap(frame=lo_quantity_b, rowID=6),\n\t\t\tBitmap(frame=lo_quantity_b, rowID=7),\n\t\t\tBitmap(frame=lo_quantity_b, rowID=8),\n\t\t\tBitmap(frame=lo_quantity_b, rowID=9),\n\t\t\tBitmap(frame=lo_quantity_b, rowID=10),\n\t\t\tBitmap(frame=lo_quantity_b, rowID=11),\n\t\t\tBitmap(frame=lo_quantity_b, rowID=12),\n\t\t\tBitmap(frame=lo_quantity_b, rowID=13),\n\t\t\tBitmap(frame=lo_quantity_b, rowID=14),\n\t\t\tBitmap(frame=lo_quantity_b, rowID=15),\n\t\t\tBitmap(frame=lo_quantity_b, rowID=16),\n\t\t\tBitmap(frame=lo_quantity_b, rowID=17),\n\t\t\tBitmap(frame=lo_quantity_b, rowID=18),\n\t\t\tBitmap(frame=lo_quantity_b, rowID=19),\n\t\t\tBitmap(frame=lo_quantity_b, rowID=20),\n\t\t\tBitmap(frame=lo_quantity_b, rowID=21),\n\t\t\tBitmap(frame=lo_quantity_b, rowID=22),\n\t\t\tBitmap(frame=lo_quantity_b, rowID=23),\n\t\t\tBitmap(frame=lo_quantity_b, rowID=24))\n\t),\nframe=\"lo_revenue_computed\", field=\"lo_revenue_computed\")"
    [years]

/-- Catalogue entry `"1.2b"` of `getQuerySet`. -/
def catalogueEntry_1_2b : QuerySet :=
  let years := ([1994] : List Int)
  NewQuerySet "1.2b"
    "Sum(\n\tIntersect(\n\t\tBitmap(frame=\"lo_month\", rowID=0),\n\t\tBitmap(frame=\"lo_year\", rowID=%d),\n\t\tUnion(\n\t\t\tBitmap(frame=lo_discount_b, rowID=4),\n\t\t\tBitmap(frame=lo_discount_b, rowID=5),\n\t\t\tBitmap(frame=lo_discount_b, rowID=6)),\n\t\tUnion(\n\t\t\tBitmap(frame=lo_quantity_b, rowID=26),\n\t\t\tBitmap(frame=lo_quantity_b, rowID=27),\n\t\t\tBitmap(frame=lo_quantity_b, rowID=28),\n\t\t\tBitmap(frame=lo_quantity_b, rowID=29),\n\t\t\tBitmap(frame=lo_quantity_b, rowID=30),\n\t\t\tBitmap(frame=lo_quantity_b, rowID=31),\n\t\t\tBitmap(frame=lo_quantity_b, rowID=32),\n\t\t\tBitmap(frame=lo_quantity_b, rowID=33),\n\t\t\tBitmap(frame=lo_quantity_b, rowID=34),\n\t\t\tBitmap(frame=lo_quantity_b, rowID=35),\n\t\t\tBitmap(frame=lo_quantity_b, rowID=36))\n\t),\nframe=\"lo_revenue_computed\", field=\"lo_revenue_computed\")"
    [years]

/-- Catalogue entry `"1.3b"` of `getQuerySet`. -/
def catalogueEntry_1_3b : QuerySet :=
  let years := ([1994] : List Int)
  NewQuerySet "1.3b"
    "Sum(\n\tIntersect(\n\t\tBitmap(frame=\"lo_weeknum\", rowID=6),\n\t\tBitmap(frame=\"lo_year\", rowID=%d),\n\t\tUnion(\n\t\t\tBitmap(frame=lo_discount_b, rowID=5),\n\t\t\tBitmap(frame=lo_discount_b, rowID=6),\n\t\t\tBitmap(frame=lo_discount_b, rowID=7)),\n\t\tUnion(\n\t\t\tBitmap(frame=lo_quantity_b, rowID=26),\n\t\t\tBitmap(frame=lo_quantity_b, rowID=27),\n\t\t\tBitmap(frame=lo_quantity_b, rowID=28),\n\t\t\tBitmap(frame=lo_quantity_b, rowID=29),\n\t\t\tBitmap(frame=lo_quantity_b, rowID=30),\n\t\t\tBitmap(frame=lo_quantity_b, rowID=31),\n\t\t\tBitmap(frame=lo_quantity_b, rowID=32),\n\t\t\tBitmap(frame=lo_quantity_b, rowID=33),\n\t\t\tBitmap(frame=lo_quantity_b, rowID=34),\n\t\t\tBitmap(frame=lo_quantity_b, rowID=35),\n\t\t\tBitmap(frame=lo_quantity_b, rowID=36))\n\t),\nframe=\"lo_revenue_computed\", field=\"lo_revenue_computed\")"
    [years]

/-- Catalogue entry `"1.1c"` of `getQuerySet`. -/
def catalogueEntry_1_1c : QuerySet :=
  let years := ([1993] : List Int)
  NewQuerySet "1.1c"
    "Sum(\n\tIntersect(\n\t\tBitmap(frame=\"lo_year\", rowID=%d),\n\t\tRange(frame=\"lo_discount\", lo_discount >< [1,3]),\n\t\tRange(frame=\"lo_quantity\", lo_quantity < 25)\n\t),\nframe=\"lo_revenue_computed\", field=\"lo_revenue_computed\")"
    [years]

/-- Catalogue entry `"1.2c"` of `getQuerySet`. -/
def catalogueEntry_1_2c : QuerySet :=
  let years := ([1994] : List Int)
  NewQuerySet "1.2c"
    "Sum(\n\tIntersect(\n\t\tBitmap(frame=\"lo_month\", rowID=0),\n\t\tBitmap(frame=\"lo_year\", rowID=%d),\n\t\tRange(frame=\"lo_discount\", lo_discount >< [4,6]),\n\t\tRange(frame=\"lo_quantity\", lo_quantity >< [26,35]),\n\t),\nframe=\"lo_revenue_computed\", field=\"lo_revenue_computed\")"
    [years]

/-- Catalogue entry `"1.3c"` of `getQuerySet`. -/
def catalogueEntry_1_3c : QuerySet :=
  let years := ([1994] : List Int)
  NewQuerySet "1.3c"
    "Sum(\n\tIntersect(\n\t\tBitmap(frame=\"lo_weeknum\", rowID=6),\n\t\tBitmap(frame=\"lo_year\", rowID=%d),\n\t\tRange(frame=\"lo_discount\", lo_discount >< [5,7]),\n\t\tRange(frame=\"lo_quantity\", lo_quantity >< [26,35]),\n\t),\nframe=\"lo_revenue_computed\", field=\"lo_revenue_computed\")"
    [years]

/-- Catalogue entry `"2.1"` of `getQuerySet`. -/
def catalogueEntry_2_1 : QuerySet :=
  let years := arange 1992 1999 1
  let brands := arange 40 80 1
  NewQuerySet "2.1"
    "Sum(\n\tIntersect(\n\t\tBitmap(frame=\"p_brand1\", rowID=%d),\n\t\tBitmap(frame=\"lo_year\", rowID=%d),\n\t\tBitmap(frame=\"s_region\", rowID=0),\n\t),\n\tframe=\"lo_revenue\", field=\"lo_revenue\")"
    [brands, years]

/-- Catalogue entry `"2.1r"` of `getQuerySet`. -/
def catalogueEntry_2_1r : QuerySet :=
  let years := arange 1992 1999 1
  let brands := arange 40 80 1
  NewQuerySet "2.1r"
    "Sum(\n\tIntersect(\n\t\tBitmap(frame=\"p_brand1\", rowID=%d),\n\t\tIntersectReg(\n\t\t\tBitmap(frame=\"lo_year\", rowID=%d),\n\t\t\tBitmap(frame=\"s_region\", rowID=0),\n\t\t),\n\t),\n\tframe=\"lo_revenue\", field=\"lo_revenue\")"
    [brands, years]

/-- Catalogue entry `"2.2"` of `getQuerySet`. -/
def catalogueEntry_2_2 : QuerySet :=
  let years := arange 1992 1999 1
  let brands := arange 260 268 1
  NewQuerySet "2.2"
    "Sum(\n\tIntersect(\n\t\tBitmap(frame=\"p_brand1\", rowID=%d),\n\t\tBitmap(frame=\"lo_year\", rowID=%d),\n\t\tBitmap(frame=\"s_region\", rowID=2),\n\t),\n\tframe=\"lo_revenue\", field=\"lo_revenue\")"
    [brands, years]

/-- Catalogue entry `"2.3"` of `getQuerySet`. -/
def catalogueEntry_2_3 : QuerySet :=
  let years := arange 1992 1999 1
  NewQuerySet "2.3"
    "Sum(\n\tIntersect(\n\t\tBitmap(frame=\"lo_year\", rowID=%d),\n\t\tBitmap(frame=\"p_brand1\", rowID=260),\n\t\tBitmap(frame=\"s_region\", rowID=3),\n\t),\n\tframe=\"lo_revenue\", field=\"lo_revenue\")"
    [years]

/-- Catalogue entry `"3.1"` of `getQuerySet`. -/
def catalogueEntry_3_1 : QuerySet :=
  let years := arange 1992 1998 1
  let nationsA := arange 10 15 1
  NewQuerySet "3.1"
    "Sum(\n\tIntersect(\n\t\tBitmap(frame=\"c_nation\", rowID=%d),\n\t\tBitmap(frame=\"s_nation\", rowID=%d),\n\t\tBitmap(frame=\"lo_year\", rowID=%d),\n\t),\n\tframe=\"lo_revenue\", field=\"lo_revenue\")"
    [nationsA, nationsA, years]

/-- Catalogue entry `"3.1r"` of `getQuerySet`. -/
def catalogueEntry_3_1r : QuerySet :=
  let years := arange 1992 1998 1
  let nationsA := arange 10 15 1
  NewQuerySet "3.1r"
    "Sum(\n\tIntersect(\n\t\tBitmap(frame=\"lo_year\", rowID=%d),\n\t\tIntersectReg(\n\t\t\tBitmap(frame=\"c_nation\", rowID=%d),\n\t\t\tBitmap(frame=\"s_nation\", rowID=%d),\n\t\t),\n\t),\n\tframe=\"lo_revenue\", field=\"lo_revenue\")"
    [years, nationsA, nationsA]

/-- Catalogue entry `"3.2"` of `getQuerySet`. -/
def catalogueEntry_3_2 : QuerySet :=
  let years := arange 1992 1998 1
  let nationID := nationsLookup "UNITED STATES"
  let cities := arange (nationID * 10) (nationID * 10 + 10) 1
  NewQuerySet "3.2"
    "Sum(\n\tIntersect(\n\t\tBitmap(frame=\"c_city\", rowID=%d),\n\t\tBitmap(frame=\"s_city\", rowID=%d),\n\t\tBitmap(frame=\"lo_year\", rowID=%d),\n\t),\n\tframe=\"lo_revenue\", field=\"lo_revenue\")"
    [cities, cities, years]

/-- Catalogue entry `"3.2r"` of `getQuerySet`. -/
def catalogueEntry_3_2r : QuerySet :=
  let years := arange 1992 1998 1
  let nationID := nationsLookup "UNITED STATES"
  let cities := arange (nationID * 10) (nationID * 10 + 10) 1
  NewQuerySet "3.2r"
    "Sum(\n\tIntersect(\n\t\tBitmap(frame=\"lo_year\", rowID=%d),\n\t\tIntersectReg(\n\t\t\tBitmap(frame=\"c_city\", rowID=%d),\n\t\t\tBitmap(frame=\"s_city\", rowID=%d),\n\t\t),\n\t),\n\tframe=\"lo_revenue\", field=\"lo_revenue\")"
    [years, cities, cities]

/-- Catalogue entry `"3.3"` of `getQuerySet`. -/
def catalogueEntry_3_3 : QuerySet :=
  let years := arange 1992 1998 1
  let cities := ([181, 185] : List Int)
  NewQuerySet "3.3"
    "Sum(\n\tIntersect(\n\t\tBitmap(frame=\"c_city\", rowID=%d),\n\t\tBitmap(frame=\"s_city\", rowID=%d),\n\t\tBitmap(frame=\"lo_year\", rowID=%d),\n\t),\n\tframe=\"lo_revenue\", field=\"lo_revenue\")"
    [cities, cities, years]

/-- Catalogue entry `"3.4"` of `getQuerySet`. -/
def catalogueEntry_3_4 : QuerySet :=
  let cities := ([181, 185] : List Int)
  NewQuerySet "3.4"
    "Sum(\n\tIntersect(\n\t\tBitmap(frame=\"c_city\", rowID=%d),\n\t\tBitmap(frame=\"s_city\", rowID=%d),\n\t\tBitmap(frame=\"lo_month\", rowID=11),\n\t\tBitmap(frame=\"lo_year\", rowID=1997),\n\t),\n\tframe=\"lo_revenue\", field=\"lo_revenue\")"
    [cities, cities]

/-- Catalogue entry `"4.1"` of `getQuerySet`. -/
def catalogueEntry_4_1 : QuerySet :=
  let years := arange 1992 1999 1
  let nationsA := arange 0 5 1
  NewQuerySet "4.1"
    "Sum(\n\tIntersect(\n\t\tBitmap(frame=\"c_nation\", rowID=%d),\n\t\tBitmap(frame=\"lo_year\", rowID=%d),\n\t\tBitmap(frame=\"s_region\", rowID=0),\n\t\tUnion(\n\t\t\tBitmap(frame=\"p_mfgr\", rowID=1),\n\t\t\tBitmap(frame=\"p_mfgr\", rowID=2),\n\t\t)\n\t),\n\tframe=\"lo_profit\", field=\"lo_profit\")"
    [nationsA, years]

/-- Catalogue entry `"4.1r"` of `getQuerySet`. -/
def catalogueEntry_4_1r : QuerySet :=
  let years := arange 1992 1999 1
  let nationsA := arange 0 5 1
  NewQuerySet "4.1r"
    "Sum(\n\tIntersect(\n\t\tBitmap(frame=\"c_nation\", rowID=%d),\n\t\tIntersectReg(\n\t\t\tBitmap(frame=\"lo_year\", rowID=%d),\n\t\t\tBitmap(frame=\"s_region\", rowID=0),\n\t\t\tUnion(\n\t\t\t\tBitmap(frame=\"p_mfgr\", rowID=1),\n\t\t\t\tBitmap(frame=\"p_mfgr\", rowID=2),\n\t\t\t)\n\t\t)\n\t),\n\tframe=\"lo_profit\", field=\"lo_profit\")"
    [nationsA, years]

/-- Catalogue entry `"4.1rb"` of `getQuerySet`. -/
def catalogueEntry_4_1rb : QuerySet :=
  let years := arange 1992 1999 1
  let nationsA := arange 0 5 1
  NewRegisterQuerySet "4.1rb"
    "Sum(\n\tIntersect(\n\t\tBitmap(frame=\"c_nation\", rowID=%d),\n\t\tBitmap(frame=\"lo_year\", rowID=%d),\n\t\tLoad(id=123)),\n\tframe=lo_profit, field=lo_profit)"
    "Store(\n\tIntersect(\n\t\tBitmap(frame=\"s_region\", rowID=0),\n\t\tUnion(\n\t\t\tBitmap(frame=\"p_mfgr\", rowID=1),\n\t\t\tBitmap(frame=\"p_mfgr\", rowID=2),\n\t\t)), id=41)"
    "Purge(id=41)"
    [nationsA, years]

/-- Catalogue entry `"4.2"` of `getQuerySet`. -/
def catalogueEntry_4_2 : QuerySet :=
  let years := ([1997, 1998] : List Int)
  let nationsA := arange 0 5 1
  let categories := arange 0 10 1
  NewQuerySet "4.2"
    "Sum(\n\tIntersect(\n\t\tBitmap(frame=\"p_category\", rowID=%d),\n\t\tBitmap(frame=\"s_nation\", rowID=%d),\n\t\tBitmap(frame=\"lo_year\", rowID=%d),\n\t\tBitmap(frame=\"c_region\", rowID=0),\n\t),\nframe=\"lo_profit\", field=\"lo_profit\")"
    [categories, nationsA, years]

/-- Catalogue entry `"4.2r"` of `getQuerySet`. -/
def catalogueEntry_4_2r : QuerySet :=
  let years := ([1997, 1998] : List Int)
  let nationsA := arange 0 5 1
  let categories := arange 0 10 1
  NewQuerySet "4.2r"
    "Sum(\n\tIntersect(\n\t\tBitmap(frame=\"p_category\", rowID=%d),\n\t\tIntersectReg(\n\t\t\tBitmap(frame=\"s_nation\", rowID=%d),\n\t\t\tBitmap(frame=\"lo_year\", rowID=%d),\n\t\t\tBitmap(frame=\"c_region\", rowID=0),\n\t\t),\n\t),\nframe=\"lo_profit\", field=\"lo_profit\")"
    [categories, nationsA, years]

/-- Catalogue entry `"4.3"` of `getQuerySet`. -/
def catalogueEntry_4_3 : QuerySet :=
  let years := ([1997, 1998] : List Int)
  let cities := arange 30 40 1
  let brands := arange 120 160 1
  NewQuerySet "4.3"
    "Sum(\n\tIntersect(\n\t\tBitmap(frame=\"p_brand1\", rowID=%d),\n\t\tBitmap(frame=\"s_city\", rowID=%d),\n\t\tBitmap(frame=\"lo_year\", rowID=%d),\n\t\tBitmap(frame=\"c_region\", rowID=0),\n\t),\nframe=\"lo_profit\", field=\"lo_profit\")"
    [brands, cities, years]

/-- Catalogue entry `"4.3r"` of `getQuerySet`. -/
def catalogueEntry_4_3r : QuerySet :=
  let years := ([1997, 1998] : List Int)
  let cities := arange 30 40 1
  let brands := arange 120 160 1
  NewQuerySet "4.3r"
    "Sum(\n\tIntersect(\n\t\tBitmap(frame=\"p_brand1\", rowID=%d),\n\t\tIntersectReg(\n\t\t\tBitmap(frame=\"lo_year\", rowID=%d),\n\t\t\tBitmap(frame=\"s_city\", rowID=%d),\n\t\t\tBitmap(frame=\"c_region\", rowID=0),\n\t\t),\n\t),\nframe=\"lo_profit\", field=\"lo_profit\")"
    [brands, years, cities]

/-- The Go zero value of `QuerySet`: what `getQuerySet` returns for a name
matching no case (note `iterations = 0`, unlike a `NewQuerySet` with no
dimensions). -/
def zeroQuerySet : QuerySet :=
  { Name := "", Format := "", ArgSets := [], setup := "", teardown := "",
    dim := 0, iterations := 0, lengths := [] }

/-- Embeds the `switch qname` of `getQuerySet`: the named catalogue lookup,
falling through to the zero-value `QuerySet` for an unknown name. -/
def getQuerySet (qname : String) : QuerySet :=
  if qname = "1.1" then catalogueEntry_1_1
  else if qname = "1.2" then catalogueEntry_1_2
  else if qname = "1.3" then catalogueEntry_1_3
  else if qname = "1.1b" then catalogueEntry_1_1b
  else if qname = "1.2b" then catalogueEntry_1_2b
  else if qname = "1.3b" then catalogueEntry_1_3b
  else if qname = "1.1c" then catalogueEntry_1_1c
  else if qname = "1.2c" then catalogueEntry_1_2c
  else if qname = "1.3c" then catalogueEntry_1_3c
  else if qname = "2.1" then catalogueEntry_2_1
  else if qname = "2.1r" then catalogueEntry_2_1r
  else if qname = "2.2" then catalogueEntry_2_2
  else if qname = "2.3" then catalogueEntry_2_3
  else if qname = "3.1" then catalogueEntry_3_1
  else if qname = "3.1r" then catalogueEntry_3_1r
  else if qname = "3.2" then catalogueEntry_3_2
  else if qname = "3.2r" then catalogueEntry_3_2r
  else if qname = "3.3" then catalogueEntry_3_3
  else if qname = "3.4" then catalogueEntry_3_4
  else if qname = "4.1" then catalogueEntry_4_1
  else if qname = "4.1r" then catalogueEntry_4_1r
  else if qname = "4.1rb" then catalogueEntry_4_1rb
  else if qname = "4.2" then catalogueEntry_4_2
  else if qname = "4.2r" then catalogueEntry_4_2r
  else if qname = "4.3" then catalogueEntry_4_3
  else if qname = "4.3r" then catalogueEntry_4_3r
  else zeroQuerySet

/-- The names the catalogue's switch recognizes. -/
def catalogueNames : List String :=
  ["1.1", "1.2", "1.3", "1.1b", "1.2b", "1.3b", "1.1c", "1.2c", "1.3c", "2.1", "2.1r", "2.2", "2.3", "3.1", "3.1r", "3.2", "3.2r", "3.3", "3.4", "4.1", "4.1r", "4.1rb", "4.2", "4.2r", "4.3", "4.3r"]

theorem unravelAux_eq_simple (i : Nat) :
    ∀ (dim : List Nat) (denom : Nat),
      unravelAux i denom dim = unravelSimple (i / denom) dim := by
  intro dim
  induction dim with
  | nil => intro denom; rfl
  | cons d ds ih =>
    intro denom
    simp only [unravelAux, unravelSimple, ih (denom * d), Nat.div_div_eq_div_mul]

theorem UnravelIndex_eq_simple (i : Nat) (dim : List Nat) :
    UnravelIndex i dim = unravelSimple i dim := by
  simpa using unravelAux_eq_simple i dim 1

theorem unravelSimple_length (i : Nat) (dim : List Nat) :
    (unravelSimple i dim).length = dim.length := by
  induction dim generalizing i with
  | nil => rfl
  | cons d ds ih => simp [unravelSimple, ih]

theorem unravelSimple_getD (i : Nat) (dim : List Nat) :
    ∀ k, k < dim.length →
      (unravelSimple i dim).getD k 0 = (i / (dim.take k).prod) % dim.getD k 0 := by
  induction dim generalizing i with
  | nil => intro k hk; simp at hk
  | cons d ds ih =>
    intro k hk
    cases k with
    | zero => simp [unravelSimple]
    | succ k' =>
      have hk' : k' < ds.length := by simpa using hk
      simp only [unravelSimple, List.getD_cons_succ, List.take_succ_cons,
        List.prod_cons, ih (i / d) k' hk', Nat.div_div_eq_div_mul]

theorem unravelSimple_lt (i : Nat) (dim : List Nat) (hpos : ∀ d ∈ dim, 0 < d) :
    ∀ k, k < dim.length → (unravelSimple i dim).getD k 0 < dim.getD k 0 := by
  induction dim generalizing i with
  | nil => intro k hk; simp at hk
  | cons d ds ih =>
    intro k hk
    cases k with
    | zero =>
      exact Nat.mod_lt _ (hpos d (List.mem_cons_self d ds))
    | succ k' =>
      have hk' : k' < ds.length := by simpa using hk
      simpa [unravelSimple] using
        ih (i / d) (fun x hx => hpos x (List.mem_cons_of_mem d hx)) k' hk'

theorem ravel_unravelSimple (dim : List Nat) :
    ∀ i, i < dim.prod → ravelIndex (unravelSimple i dim) dim = i := by
  induction dim with
  | nil => intro i hi; simp at hi; simp [unravelSimple, ravelIndex, hi]
  | cons d ds ih =>
    intro i hi
    have hd : 0 < d := by
      rcases Nat.eq_zero_or_pos d with h0 | h
      · simp [h0] at hi
      · exact h
    have hds : i / d < ds.prod := by
      rw [Nat.div_lt_iff_lt_mul hd]
      calc i < (d :: ds).prod := hi
        _ = ds.prod * d := by rw [List.prod_cons, Nat.mul_comm]
    simp only [unravelSimple, ravelIndex, ih (i / d) hds]
    exact Nat.mod_add_div i d

theorem unravelSimple_ravel (dim : List Nat) :
    ∀ idx : List Nat, idx.length = dim.length →
      (∀ k, k < dim.length → idx.getD k 0 < dim.getD k 0) →
      unravelSimple (ravelIndex idx dim) dim = idx := by
  induction dim with
  | nil =>
    intro idx hlen _
    have h0 : idx = [] := List.length_eq_zero.mp hlen
    subst h0; rfl
  | cons d ds ih =>
    intro idx hlen hbound
    cases idx with
    | nil => simp at hlen
    | cons i is =>
      have hi : i < d := by simpa using hbound 0 (Nat.succ_pos _)
      have hd : 0 < d := Nat.lt_of_le_of_lt (Nat.zero_le i) hi
      have hbound' : ∀ k, k < ds.length → is.getD k 0 < ds.getD k 0 := by
        intro k hk
        simpa using hbound (k + 1) (by simpa using hk)
      have hlen' : is.length = ds.length := by simpa using hlen
      simp only [ravelIndex, unravelSimple]
      have h1 : (i + d * ravelIndex is ds) % d = i := by
        rw [Nat.add_mul_mod_self_left, Nat.mod_eq_of_lt hi]
      have h2 : (i + d * ravelIndex is ds) / d = ravelIndex is ds := by
        rw [Nat.add_mul_div_left _ _ hd, Nat.div_eq_of_lt hi, Nat.zero_add]
      rw [h1, h2, ih is hlen' hbound']

theorem ravelIndex_lt (dim : List Nat) :
    ∀ idx : List Nat, idx.length = dim.length →
      (∀ k, k < dim.length → idx.getD k 0 < dim.getD k 0) →
      ravelIndex idx dim < dim.prod := by
  induction dim with
  | nil => intro idx _ _; simp [ravelIndex]
  | cons d ds ih =>
    intro idx hlen hbound
    cases idx with
    | nil => simp at hlen
    | cons i is =>
      have hi : i < d := by simpa using hbound 0 (Nat.succ_pos _)
      have hbound' : ∀ k, k < ds.length → is.getD k 0 < ds.getD k 0 := by
        intro k hk
        simpa using hbound (k + 1) (by simpa using hk)
      have hlen' : is.length = ds.length := by simpa using hlen
      have hr : ravelIndex is ds < ds.prod := ih is hlen' hbound'
      simp only [ravelIndex, List.prod_cons]
      calc i + d * ravelIndex is ds < d + d * ravelIndex is ds := by omega
        _ = d * (ravelIndex is ds + 1) := by ring
        _ ≤ d * ds.prod := Nat.mul_le_mul_left d hr

/-- C1: for positive dimensions and an in-range index `i`, `UnravelIndex`
returns a list of the right length whose `k`-th component is
`(i / Πⱼ<ₖ dimⱼ) % dimₖ`, each component strictly below its dimension,
decoding followed by stride re-encoding recovers `i`, and conversely every
in-range multi-index is the decoding of its own stride encoding (so the map
is a bijection from `[0, Π dim)` onto the product of the ranges, component 0
fastest-varying). -/
theorem unravelIndex_bijection (dim : List Nat) (i : Nat)
    (hpos : ∀ d ∈ dim, 0 < d) (hi : i < dim.prod) :
    (UnravelIndex i dim).length = dim.length ∧
    (∀ k, k < dim.length →
      (UnravelIndex i dim).getD k 0 = (i / (dim.take k).prod) % dim.getD k 0) ∧
    (∀ k, k < dim.length → (UnravelIndex i dim).getD k 0 < dim.getD k 0) ∧
    ravelIndex (UnravelIndex i dim) dim = i ∧
    (∀ idx : List Nat, idx.length = dim.length →
      (∀ k, k < dim.length → idx.getD k 0 < dim.getD k 0) →
      ravelIndex idx dim < dim.prod ∧
        UnravelIndex (ravelIndex idx dim) dim = idx) := by
  rw [UnravelIndex_eq_simple]
  refine ⟨unravelSimple_length i dim, unravelSimple_getD i dim,
    unravelSimple_lt i dim hpos, ravel_unravelSimple dim i hi, ?_⟩
  intro idx hlen hbound
  rw [UnravelIndex_eq_simple]
  exact ⟨ravelIndex_lt dim idx hlen hbound, unravelSimple_ravel dim idx hlen hbound⟩

/-- Witness for C1 at `dim = [5, 4, 3]`, `i = 33` (the example in the
source comment). -/
theorem unravelIndex_bijection_witness :
    UnravelIndex 33 [5, 4, 3] = [3, 2, 1] ∧
      ravelIndex (UnravelIndex 33 [5, 4, 3]) [5, 4, 3] = 33 :=
  ⟨by decide, (unravelIndex_bijection [5, 4, 3] 33 (by decide) (by decide)).2.2.2.1⟩

/-- C10: `UnravelIndex` is total for every nonnegative index and positive
dimension list — including indices at or beyond the product: it always
returns `len dim` components with `0 ≤ idxₖ < dimₖ`. -/
theorem unravelIndex_total (dim : List Nat) (i : Nat)
    (hpos : ∀ d ∈ dim, 0 < d) :
    (UnravelIndex i dim).length = dim.length ∧
    (∀ k, k < dim.length → (UnravelIndex i dim).getD k 0 < dim.getD k 0) := by
  rw [UnravelIndex_eq_simple]
  exact ⟨unravelSimple_length i dim, unravelSimple_lt i dim hpos⟩

/-- Witness for C10 at an out-of-range index (`i = 1000 ≥ 60 = 5*4*3`). -/
theorem unravelIndex_total_witness :
    (UnravelIndex 1000 [5, 4, 3]).length = 3 ∧ UnravelIndex 1000 [5, 4, 3] = [0, 0, 2] :=
  ⟨(unravelIndex_total [5, 4, 3] 1000 (by decide)).1, by decide⟩

/-! ## Enumeration of a QuerySet (C2) -/

theorem NewQuerySet_iterations (name fmtStr : String) (L : List (List Int)) :
    (NewQuerySet name fmtStr L).iterations = (L.map List.length).prod := by
  simp [NewQuerySet, List.prod_eq_foldl, List.foldl_map]

theorem queryArgs_newQuerySet (name fmtStr : String) (L : List (List Int)) (n : Nat) :
    queryArgs (NewQuerySet name fmtStr L) n = pickArgs L n := by
  simp [queryArgs, NewQuerySet, pickArgs, UnravelIndex_eq_simple]

theorem pickArgs_cons (l : List Int) (L : List (List Int)) (n : Nat) :
    pickArgs (l :: L) n = l.getD (n % l.length) 0 :: pickArgs L (n / l.length) := by
  simp only [pickArgs, List.map_cons, List.length_cons, List.range_succ_eq_map,
    List.map_map, unravelSimple]
  refine congrArg₂ _ rfl ?_
  refine List.map_congr_left fun k _ => ?_
  simp [Function.comp]

theorem range_mul_flatMap (d P : Nat) :
    List.range (d * P) =
      (List.range P).flatMap fun q => (List.range d).map fun r => d * q + r := by
  induction P with
  | zero => simp
  | succ P ih =>
    rw [Nat.mul_succ, List.range_add, List.range_succ, List.flatMap_append, ih]
    simp

theorem map_getD_range (l : List Int) :
    (List.range l.length).map (fun i => l.getD i 0) = l := by
  induction l with
  | nil => rfl
  | cons a l ih =>
    simp only [List.length_cons, List.range_succ_eq_map, List.map_cons,
      List.getD_cons_zero, List.map_map]
    refine congrArg₂ _ rfl ?_
    calc (List.range l.length).map ((fun i => (a :: l).getD i 0) ∘ Nat.succ)
        = (List.range l.length).map (fun i => l.getD i 0) :=
          List.map_congr_left fun i _ => by simp
      _ = l := ih

/-- The heart of C2: mapping the argument selection over the whole
iteration range enumerates exactly `L.sections`, the Cartesian product of
the grids in declaration order, first grid fastest-varying. -/
theorem pickArgs_enumerates (L : List (List Int)) :
    (List.range (L.map List.length).prod).map (pickArgs L) = L.sections := by
  induction L with
  | nil => rfl
  | cons l L ih =>
    rw [List.map_cons, List.prod_cons, range_mul_flatMap, List.map_flatMap]
    have hinner : ∀ q, ((List.range l.length).map fun r => l.length * q + r).map
        (pickArgs (l :: L)) = l.map (· :: pickArgs L q) := by
      intro q
      rw [List.map_map]
      conv_rhs => rw [← map_getD_range l, List.map_map]
      refine List.map_congr_left fun r hr => ?_
      have hrd : r < l.length := List.mem_range.mp hr
      have hd : 0 < l.length := Nat.lt_of_le_of_lt (Nat.zero_le r) hrd
      show pickArgs (l :: L) (l.length * q + r) = l.getD r 0 :: pickArgs L q
      rw [pickArgs_cons, Nat.mul_add_mod, Nat.mod_eq_of_lt hrd,
        Nat.mul_add_div hd, Nat.div_eq_of_lt hrd, Nat.add_zero]
    rw [List.flatMap_congr fun q _ => hinner q]
    rw [show ((List.range (L.map List.length).prod).flatMap fun q => l.map (· :: pickArgs L q))
        = ((List.range (L.map List.length).prod).map (pickArgs L)).flatMap
            (fun s => l.map (· :: s))
      from (List.flatMap_map (pickArgs L) (fun s => l.map (· :: s))
        (List.range (L.map List.length).prod)).symm]
    rw [ih]
    rfl

theorem sections_nodup (L : List (List Int)) (h : ∀ l ∈ L, l.Nodup) :
    L.sections.Nodup := by
  induction L with
  | nil => simp
  | cons l L ih =>
    show ((List.sections L).flatMap fun s => l.map (· :: s)).Nodup
    rw [List.nodup_flatMap]
    refine ⟨fun s _ => ?_, ?_⟩
    · refine (h l (List.mem_cons_self l L)).map ?_
      intro a b hab
      simpa using hab
    · have hnd : (List.sections L).Nodup := ih fun x hx => h x (List.mem_cons_of_mem l hx)
      refine hnd.imp fun {s t} hst => ?_
      intro x hxs hxt
      rcases List.mem_map.mp hxs with ⟨a, _, rfl⟩
      rcases List.mem_map.mp hxt with ⟨b, _, hbt⟩
      injection hbt with h1 h2
      exact hst h2.symm

/-- C2: for a `QuerySet` built by `NewQuerySet` from grids `A₀..A_{D-1}`,
`iterations` equals `|A₀|×…×|A_{D-1}|`; mapping `n ↦` chosen argument tuple
over `[0, iterations)` enumerates the Cartesian product of the grids (in
dimension declaration order, dimension 0 fastest) exactly once; hence the
rendered queries `QueryN n` are exactly the renderings of those
combinations; and when the grids are duplicate-free no combination is
enumerated twice. -/
theorem querySet_enumerates (name fmtStr : String) (argsets : List (List Int)) :
    (NewQuerySet name fmtStr argsets).iterations = (argsets.map List.length).prod ∧
    (List.range (NewQuerySet name fmtStr argsets).iterations).map
        (queryArgs (NewQuerySet name fmtStr argsets)) = argsets.sections ∧
    (List.range (NewQuerySet name fmtStr argsets).iterations).map
        (QueryN (NewQuerySet name fmtStr argsets))
      = argsets.sections.map
          (fun args => String.mk (renderFmt (fmtStr ++ "\n").data args)) ∧
    ((∀ l ∈ argsets, l.Nodup) →
      ((List.range (NewQuerySet name fmtStr argsets).iterations).map
          (queryArgs (NewQuerySet name fmtStr argsets))).Nodup) := by
  have hiter := NewQuerySet_iterations name fmtStr argsets
  have hargs : (List.range (NewQuerySet name fmtStr argsets).iterations).map
      (queryArgs (NewQuerySet name fmtStr argsets)) = argsets.sections := by
    rw [hiter, List.map_congr_left fun n _ => queryArgs_newQuerySet name fmtStr argsets n]
    exact pickArgs_enumerates argsets
  refine ⟨hiter, hargs, ?_, fun hnd => ?_⟩
  · have : (List.range (NewQuerySet name fmtStr argsets).iterations).map
        (QueryN (NewQuerySet name fmtStr argsets))
        = ((List.range (NewQuerySet name fmtStr argsets).iterations).map
            (queryArgs (NewQuerySet name fmtStr argsets))).map
          (fun args => String.mk (renderFmt (fmtStr ++ "\n").data args)) := by
      rw [List.map_map]; rfl
    rw [this, hargs]
  · rw [hargs]; exact sections_nodup argsets hnd

/-! ## Construction-time validation (C6) -/

theorem renderFmt_no_verbs (f : List Char) (h : countVerbs f = 0) (args : List Int) :
    renderFmt f args = f ++ extraMark args := by
  induction f using countVerbs.induct with
  | case1 => rfl
  | case2 c => simp [renderFmt]
  | case3 c1 c2 rest hc ih =>
    rw [countVerbs, if_pos hc] at h
    omega
  | case4 c1 c2 rest hc ih =>
    rw [countVerbs, if_neg hc] at h
    simp only [renderFmt]
    rw [if_neg hc, ih h]
    rfl

/-- C6 counterexample: the template `"Sum()"` has 0 substitution slots while
the grid list has 1 dimension, yet `NewQuerySet` succeeds and returns a
fully-formed `QuerySet`; the mismatch surfaces only when `QueryN` is later
called, which misrenders with Go's `%!(EXTRA int=..)` marker instead of
failing at construction. -/
theorem newQuerySet_mismatch_counterexample :
    countVerbs "Sum()".data = 0 ∧
    (NewQuerySet "q" "Sum()" [[1, 2]]).dim = 1 ∧
    NewQuerySet "q" "Sum()" [[1, 2]]
      = { Name := "q", Format := "Sum()", ArgSets := [[1, 2]], setup := "",
          teardown := "", dim := 1, iterations := 2, lengths := [2] } ∧
    QueryN (NewQuerySet "q" "Sum()" [[1, 2]]) 0 = "Sum()\n%!(EXTRA int=1)" := by
  refine ⟨by decide, by decide, by decide, ?_⟩
  decide

/-- C6 amended: `NewQuerySet` performs no slot-count validation at all —
construction always succeeds and returns the stored fields with the derived
`dim`, `lengths` and `iterations`, whatever the template; a slot/dimension
mismatch surfaces only at render time as Go format error markers in the
query text (for a template with no slots, every argument list reappears as
a non-empty `%!(EXTRA ...)` suffix). -/
theorem newQuerySet_no_validation (name fmtStr : String) (argsets : List (List Int)) :
    NewQuerySet name fmtStr argsets
      = { Name := name, Format := fmtStr, ArgSets := argsets, setup := "",
          teardown := "", dim := argsets.length,
          iterations := (argsets.map List.length).prod,
          lengths := argsets.map List.length } ∧
    (countVerbs fmtStr.data = 0 → ∀ (a : Int) (as : List Int),
      renderFmt fmtStr.data (a :: as) = fmtStr.data ++ extraMark (a :: as) ∧
        extraMark (a :: as) ≠ []) := by
  constructor
  · simp [NewQuerySet, List.prod_eq_foldl, List.foldl_map]
  · intro h a as
    refine ⟨renderFmt_no_verbs fmtStr.data h (a :: as), ?_⟩
    simp [extraMark]

/-- Witness for C6's amended statement at the template `"Sum()"`. -/
theorem newQuerySet_no_validation_witness :
    renderFmt "Sum()".data [1] = "Sum()".data ++ extraMark [1] ∧ extraMark [1] ≠ [] :=
  (newQuerySet_no_validation "q" "Sum()" [[1, 2]]).2 (by decide) 1 []

theorem mem_dropLast_cons {α : Type} {x : α} {l : List α} {y : α}
    (h : y ∈ (x :: l).dropLast) : y = x ∨ y ∈ l.dropLast := by
  cases l with
  | nil => simp at h
  | cons z zs =>
    rw [List.dropLast_cons₂] at h
    exact List.mem_cons.mp h

theorem produceFromAux_spec (qs : QuerySet) (b : Nat) (hb : 1 ≤ b) :
    ∀ (rem n : Nat) (qB : List QueryResult), qB.length < b →
      (produceFromAux qs b rem n qB qB.length).flatten
          = qB ++ (List.range' n rem).map (QueryResultN qs) ∧
      (∀ batch ∈ (produceFromAux qs b rem n qB qB.length).dropLast,
        batch.length = b) ∧
      (∀ batch ∈ produceFromAux qs b rem n qB qB.length,
        0 < batch.length ∧ batch.length ≤ b) := by
  intro rem
  induction rem with
  | zero =>
    intro n qB hqB
    by_cases h0 : 0 < qB.length
    · simp [produceFromAux, h0, Nat.le_of_lt hqB]
    · have : qB = [] := List.length_eq_zero.mp (by omega)
      subst this
      simp [produceFromAux]
  | succ rem ih =>
    intro n qB hqB
    by_cases hfull : qB.length + 1 = b
    · have hrec := ih (n + 1) [] (by simp only [List.length_nil]; omega)
      simp only [List.length_nil] at hrec
      simp only [produceFromAux]
      rw [if_pos hfull]
      refine ⟨?_, ?_, ?_⟩
      · rw [List.flatten_cons, hrec.1, List.range'_succ, List.map_cons]
        simp
      · intro batch hbatch
        rcases mem_dropLast_cons hbatch with h | h
        · rw [h]; simpa using hfull
        · exact hrec.2.1 batch h
      · intro batch hbatch
        rcases List.mem_cons.mp hbatch with h | h
        · subst h
          simp only [List.length_append, List.length_cons, List.length_nil]
          omega
        · exact hrec.2.2 batch h
    · have hlt : qB.length + 1 < b := by omega
      have hrec := ih (n + 1) (qB ++ [QueryResultN qs n])
        (by simp only [List.length_append, List.length_cons, List.length_nil]; omega)
      rw [List.length_append, List.length_cons, List.length_nil, Nat.add_zero] at hrec
      simp only [produceFromAux]
      rw [if_neg hfull]
      refine ⟨?_, hrec.2.1, hrec.2.2⟩
      rw [hrec.1, List.range'_succ, List.map_cons, List.append_assoc]
      rfl

/-- C3: for every `QuerySet` and batch size `b ≥ 1`, the producer emits
contiguous batches in increasing index order whose concatenation is exactly
the records of indices `[0, size())` in order (exhaustive, non-overlapping,
no index repeated), every batch except possibly the last has exactly `b`
records, and every batch is nonempty with at most `b` records; the channel
is closed after this finite sequence. -/
theorem producer_partitions (qs : QuerySet) (b : Nat) (hb : 1 ≤ b) :
    (produceBatches qs b).flatten = (List.range qs.iterations).map (QueryResultN qs) ∧
    (∀ batch ∈ (produceBatches qs b).dropLast, batch.length = b) ∧
    (∀ batch ∈ produceBatches qs b, 0 < batch.length ∧ batch.length ≤ b) := by
  have h := produceFromAux_spec qs b hb qs.iterations 0 []
    (by simp only [List.length_nil]; omega)
  simp only [List.length_nil] at h
  refine ⟨?_, h.2.1, h.2.2⟩
  rw [List.range_eq_range']
  simpa using h.1

/-- Witness for C3: the spec's end-to-end example (grid sizes 3×4 = 12
iterations, batch size 5) produces batches of sizes `[5, 5, 2]`. -/
theorem producer_partitions_witness :
    (produceBatches (NewQuerySet "t" "%d %d" [[10, 20, 30], [1, 2, 3, 4]]) 5).flatten
        = (List.range (NewQuerySet "t" "%d %d" [[10, 20, 30], [1, 2, 3, 4]]).iterations).map
            (QueryResultN (NewQuerySet "t" "%d %d" [[10, 20, 30], [1, 2, 3, 4]])) ∧
    (produceBatches (NewQuerySet "t" "%d %d" [[10, 20, 30], [1, 2, 3, 4]]) 5).map
        List.length = [5, 5, 2] := by
  refine ⟨(producer_partitions (NewQuerySet "t" "%d %d" [[10, 20, 30], [1, 2, 3, 4]]) 5
    (by decide)).1, ?_⟩
  decide

theorem collectLoop_append (pre : List QueryResult)
    (h : ∀ r ∈ pre, r.err = none) (rest : List QueryResult) :
    collectLoop (pre ++ rest)
      = (pre.map formatLine ++ (collectLoop rest).1, (collectLoop rest).2) := by
  induction pre with
  | nil => simp
  | cons r pre ih =>
    have hr : r.err = none := h r (List.mem_cons_self r pre)
    have ih' := ih fun x hx => h x (List.mem_cons_of_mem r hx)
    simp [collectLoop, hr, ih']

theorem collectLoop_all_ok (l : List QueryResult) (h : ∀ r ∈ l, r.err = none) :
    collectLoop l = (l.map formatLine, none) := by
  have := collectLoop_append l h []
  simpa [collectLoop] using this

theorem collectLoop_err_of_mem (l : List QueryResult)
    (h : ∃ r ∈ l, r.err.isSome) : ∃ e, (collectLoop l).2 = some e := by
  induction l with
  | nil => simp at h
  | cons r rest ih =>
    match hr : r.err with
    | some e => exact ⟨e, by simp [collectLoop, hr]⟩
    | none =>
      rcases h with ⟨x, hx, hxe⟩
      rcases List.mem_cons.mp hx with rfl | hx'
      · rw [hr] at hxe; simp at hxe
      · rcases ih ⟨x, hx', hxe⟩ with ⟨e, he⟩
        exact ⟨e, by simp [collectLoop, hr, he]⟩

/-- C4: when the compound request of a batch fails, the worker emits exactly
one record, carrying the batch's rendered text and the underlying error and
no outputs, and then dies without retrying (the fall-through over the nil
response panics); the collector, upon the first error-carrying record it
receives, stops immediately — whatever records follow are never drained —
having written only the lines of the error-free records before it, and
reports the error; and any run whose results channel carries an
error-carrying record returns the failure sentinel instead of a normal
summary. -/
theorem batch_failure_fatal (exec : String → Except String (List Int))
    (batch : List QueryResult) (e : String)
    (hfail : exec (batchRaw batch) = Except.error e) :
    runRawSumBatchQueryStep exec batch
        = ([{ raw := batchRaw batch, inputs := [], outputs := [],
              err := some e }], true) ∧
    (∀ pre post : List QueryResult, (∀ r ∈ pre, r.err = none) →
      collectLoop (pre ++
          ({ raw := batchRaw batch, inputs := [], outputs := [],
             err := some e } : QueryResult) :: post)
        = (pre.map formatLine, some e)) ∧
    (∀ (qs : QuerySet) (concurrency batchSize nlo : Nat) (el ts : Int),
      qs.setup = "" →
      (∃ r ∈ pipelineRecords exec qs batchSize, r.err.isSome) →
      (RunSumMultiBatchModel exec nlo el ts qs concurrency batchSize).1
        = { Name := qs.Name, Iterations := 0, Concurrency := 0, BatchSize := 0,
            Seconds := -1, ColumnCount := 0, Timestamp := ts }) := by
  refine ⟨?_, ?_, ?_⟩
  · simp [runRawSumBatchQueryStep, hfail]
  · intro pre post hpre
    rw [collectLoop_append pre hpre]
    simp [collectLoop]
  · intro qs concurrency batchSize nlo el ts hsetup hex
    rcases collectLoop_err_of_mem _ hex with ⟨e', he'⟩
    simp [RunSumMultiBatchModel, hsetup, he']

/-- Witness for C4, third conjunct: a run against an always-failing engine
returns the failure sentinel. -/
theorem batch_failure_fatal_witness :
    (RunSumMultiBatchModel (fun _ => Except.error "boom") 0 7 0
        (NewQuerySet "q" "%d" [[1, 2]]) 1 2).1
      = { Name := "q", Iterations := 0, Concurrency := 0, BatchSize := 0,
          Seconds := -1, ColumnCount := 0, Timestamp := 0 } :=
  (batch_failure_fatal (fun _ => Except.error "boom") [] "boom" rfl).2.2
    (NewQuerySet "q" "%d" [[1, 2]]) 1 2 0 7 0 rfl (by decide)

/-- C5 counterexample: an engine answering a 2-record compound request with
a single result does NOT make the run fail — the run completes with a
normal success summary (elapsed time `5`, full iteration count `2`) while
writing only one result line: the second record is silently dropped, and no
result/record count mismatch error exists anywhere in the code. -/
theorem short_results_counterexample :
    RunSumMultiBatchModel (fun _ => Except.ok [7]) 0 5 0
        (NewQuerySet "q" "%d" [[10, 20]]) 1 2
      = ({ Name := "q", Iterations := 2, Concurrency := 1, BatchSize := 2,
           Seconds := 5, ColumnCount := 0, Timestamp := 0 },
         ["7 [10]\n"]) := by decide

/-- C5 amended: when the engine returns `M ≤ N` results for an `N`-record
batch, the worker emits exactly the first `M` records with results attached
positionally — no error record, no panic, no count check — silently
dropping the remaining `N - M` records. -/
theorem short_results_amended (exec : String → Except String (List Int))
    (batch : List QueryResult) (sums : List Int)
    (hok : exec (batchRaw batch) = Except.ok sums)
    (hlen : sums.length ≤ batch.length) :
    runRawSumBatchQueryStep exec batch
        = ((batch.zip sums).map fun p => { p.1 with outputs := [some p.2] },
           false) ∧
    ((batch.zip sums).map fun p => { p.1 with outputs := [some p.2] }).length
        = sums.length := by
  constructor
  · simp only [runRawSumBatchQueryStep, hok]
    rw [decide_eq_false (Nat.not_lt.mpr hlen)]
  · rw [List.length_map, List.length_zip]
    exact Nat.min_eq_right hlen

/-- Witness for C5's amended statement: the concrete 2-record batch with a
1-result response. -/
theorem short_results_amended_witness :
    runRawSumBatchQueryStep (fun _ => Except.ok [7])
        [QueryResultN (NewQuerySet "q" "%d" [[10, 20]]) 0,
         QueryResultN (NewQuerySet "q" "%d" [[10, 20]]) 1]
      = (([QueryResultN (NewQuerySet "q" "%d" [[10, 20]]) 0,
           QueryResultN (NewQuerySet "q" "%d" [[10, 20]]) 1].zip [7]).map
          fun p => { p.1 with outputs := [some p.2] }, false) :=
  (short_results_amended (fun _ => Except.ok [7])
    [QueryResultN (NewQuerySet "q" "%d" [[10, 20]]) 0,
     QueryResultN (NewQuerySet "q" "%d" [[10, 20]]) 1] [7] rfl (by decide)).1

/-- C7 counterexample: a run whose two batches both succeed but whose
teardown query fails returns the failure sentinel
`{name, 0, 0, 0, -1, 0, ts}` — the summary does NOT carry the true
iteration count (2), concurrency, batch size, or elapsed time (9) — even
though the two result lines were already written to the results file. -/
theorem teardown_failure_counterexample :
    RunSumMultiBatchModel
        (fun s => if s = "TD" then Except.error "td" else Except.ok [5, 6])
        0 9 0 (NewRegisterQuerySet "q" "%d" "SU" "TD" [[1, 2]]) 1 2
      = ({ Name := "q", Iterations := 0, Concurrency := 0, BatchSize := 0,
           Seconds := -1, ColumnCount := 0, Timestamp := 0 },
         ["5 [1]\n", "6 [2]\n"]) := by decide

/-- C7 amended: on a run whose batches all succeed but whose teardown
fails, the lines already written to the results file are preserved, but the
returned summary is the failure sentinel — iterations, concurrency, batch
size and elapsed time are all zeroed out (`Seconds = -1`), not reported;
the failure is surfaced only through that sentinel (and a log line). -/
theorem teardown_failure_amended (exec : String → Except String (List Int))
    (qs : QuerySet) (concurrency batchSize nlo : Nat) (el ts : Int)
    (hsetup : qs.setup = "" ∨ ∃ v, exec qs.setup = Except.ok v)
    (hrecs : ∀ r ∈ pipelineRecords exec qs batchSize, r.err = none)
    (e : String) (htd : exec qs.teardown = Except.error e)
    (hne : qs.teardown ≠ "") :
    RunSumMultiBatchModel exec nlo el ts qs concurrency batchSize
      = ({ Name := qs.Name, Iterations := 0, Concurrency := 0, BatchSize := 0,
           Seconds := -1, ColumnCount := 0, Timestamp := ts },
         (pipelineRecords exec qs batchSize).map formatLine) := by
  have hcoll := collectLoop_all_ok _ hrecs
  rcases hsetup with hs | ⟨v, hs⟩
  · simp [RunSumMultiBatchModel, hs, hcoll, hne, htd]
  · by_cases hse : qs.setup = ""
    · simp [RunSumMultiBatchModel, hse, hcoll, hne, htd]
    · simp [RunSumMultiBatchModel, hse, hs, hcoll, hne, htd]

/-- Witness for C7's amended statement at the concrete teardown-failing
run. -/
theorem teardown_failure_amended_witness :
    RunSumMultiBatchModel
        (fun s => if s = "TD" then Except.error "td" else Except.ok [5, 6])
        0 9 0 (NewRegisterQuerySet "q" "%d" "SU" "TD" [[1, 2]]) 1 2
      = ({ Name := "q", Iterations := 0, Concurrency := 0, BatchSize := 0,
           Seconds := -1, ColumnCount := 0, Timestamp := 0 },
         (pipelineRecords
            (fun s => if s = "TD" then Except.error "td" else Except.ok [5, 6])
            (NewRegisterQuerySet "q" "%d" "SU" "TD" [[1, 2]]) 2).map
           formatLine) :=
  teardown_failure_amended
    (fun s => if s = "TD" then Except.error "td" else Except.ok [5, 6])
    (NewRegisterQuerySet "q" "%d" "SU" "TD" [[1, 2]]) 1 2 0 9 0
    (Or.inr ⟨[5, 6], rfl⟩) (by decide) "td" rfl (by decide)

theorem foldl_append_singleton {α β : Type} (l : List α) (f : α → β) :
    ∀ init : List β, l.foldl (fun acc x => acc ++ [f x]) init = init ++ l.map f := by
  induction l with
  | nil => simp
  | cons x xs ih =>
    intro init
    simp only [List.foldl_cons, ih, List.map_cons]
    simp

theorem foldl_append_list {α β : Type} (l : List α) (g : α → List β) :
    ∀ init : List β, l.foldl (fun acc x => acc ++ g x) init = init ++ l.flatMap g := by
  induction l with
  | nil => simp
  | cons x xs ih =>
    intro init
    simp only [List.foldl_cons, ih, List.flatMap_cons]
    simp

theorem length_flatMap_const {α β : Type} (l : List α) (f : α → List β) (k : Nat)
    (h : ∀ x ∈ l, (f x).length = k) : (l.flatMap f).length = l.length * k := by
  induction l with
  | nil => simp
  | cons x xs ih =>
    simp only [List.flatMap_cons, List.length_append, List.length_cons,
      h x (List.mem_cons_self x xs), ih fun y hy => h y (List.mem_cons_of_mem x hy)]
    ring

theorem sweepGrid_eq (run : Nat → Nat → BenchmarkResult) (C B : List Nat) :
    sweepGrid run C B = C.flatMap fun c => B.map (run c) := by
  unfold sweepGrid
  have hfun : (fun (results : List BenchmarkResult) c =>
        B.foldl (fun results b => results ++ [run c b]) results)
      = fun results c => results ++ B.map (run c) := by
    funext results c
    exact foldl_append_singleton B (run c) results
  rw [hfun]
  simpa using foldl_append_list C (fun c => B.map (run c)) []

/-- The success path of `RunSumMultiBatch`: setup absent or succeeding,
every emitted record error-free, teardown absent or succeeding — the run
returns the real summary and the full results file. -/
theorem runModel_success (exec : String → Except String (List Int))
    (qs : QuerySet) (concurrency batchSize nlo : Nat) (el ts : Int)
    (hsetup : qs.setup = "" ∨ ∃ v, exec qs.setup = Except.ok v)
    (htd : qs.teardown = "" ∨ ∃ v, exec qs.teardown = Except.ok v)
    (hrecs : ∀ r ∈ pipelineRecords exec qs batchSize, r.err = none) :
    RunSumMultiBatchModel exec nlo el ts qs concurrency batchSize
      = ({ Name := qs.Name, Iterations := qs.iterations,
           Concurrency := concurrency, BatchSize := batchSize, Seconds := el,
           ColumnCount := nlo, Timestamp := ts },
         (pipelineRecords exec qs batchSize).map formatLine) := by
  have hcoll := collectLoop_all_ok _ hrecs
  have htd' : qs.teardown ≠ "" → RunSumMultiBatchModel exec nlo el ts qs concurrency batchSize
      = RunSumMultiBatchModel exec nlo el ts qs concurrency batchSize := fun _ => rfl
  rcases hsetup with hs | ⟨v, hs⟩
  · rcases htd with ht | ⟨w, ht⟩
    · simp [RunSumMultiBatchModel, hs, ht, hcoll]
    · by_cases hte : qs.teardown = ""
      · simp [RunSumMultiBatchModel, hs, hte, hcoll]
      · simp [RunSumMultiBatchModel, hs, hte, ht, hcoll]
  · by_cases hse : qs.setup = ""
    · rcases htd with ht | ⟨w, ht⟩
      · simp [RunSumMultiBatchModel, hse, ht, hcoll]
      · by_cases hte : qs.teardown = ""
        · simp [RunSumMultiBatchModel, hse, hte, hcoll]
        · simp [RunSumMultiBatchModel, hse, hte, ht, hcoll]
    · rcases htd with ht | ⟨w, ht⟩
      · simp [RunSumMultiBatchModel, hse, hs, ht, hcoll]
      · by_cases hte : qs.teardown = ""
        · simp [RunSumMultiBatchModel, hse, hs, hte, hcoll]
        · simp [RunSumMultiBatchModel, hse, hs, hte, ht, hcoll]

/-- C8: for every `QuerySet` and every pair of value lists `C` (concurrency)
and `B` (batch size), the sweep loop performs exactly one full run per pair
of the Cartesian product `C × B`, sequentially, outer loop over concurrency
and inner over batch size, and returns `|C| * |B|` summaries in that order,
each carrying its own `(concurrency, batch size)` pair and all carrying the
same iteration count (stated under the success hypotheses of each pass). -/
theorem sweep_grid_runs (exec : String → Except String (List Int))
    (qs : QuerySet) (nlo : Nat) (el ts : Int) (C B : List Nat)
    (hsetup : qs.setup = "") (htd : qs.teardown = "")
    (hrecs : ∀ b ∈ B, ∀ r ∈ pipelineRecords exec qs b, r.err = none) :
    sweepGrid (fun c b => (RunSumMultiBatchModel exec nlo el ts qs c b).1) C B
      = (C.flatMap fun c => B.map fun b =>
          { Name := qs.Name, Iterations := qs.iterations, Concurrency := c,
            BatchSize := b, Seconds := el, ColumnCount := nlo,
            Timestamp := ts }) ∧
    (sweepGrid (fun c b => (RunSumMultiBatchModel exec nlo el ts qs c b).1)
        C B).length = C.length * B.length := by
  have hmain : sweepGrid (fun c b => (RunSumMultiBatchModel exec nlo el ts qs c b).1) C B
      = C.flatMap fun c => B.map fun b =>
          { Name := qs.Name, Iterations := qs.iterations, Concurrency := c,
            BatchSize := b, Seconds := el, ColumnCount := nlo,
            Timestamp := ts } := by
    rw [sweepGrid_eq]
    refine List.flatMap_congr fun c _ => ?_
    refine List.map_congr_left fun b hb => ?_
    rw [runModel_success exec qs c b nlo el ts (Or.inl hsetup) (Or.inl htd)
      (hrecs b hb)]
  refine ⟨hmain, ?_⟩
  rw [hmain]
  exact length_flatMap_const C _ B.length fun c _ => by simp

/-- Witness for C8: the spec's sweep example, concurrency `{1, 2}` × batch
size `{1, 3}`, yields exactly 4 summaries in order, with matching pairs and
identical iteration counts. -/
theorem sweep_grid_runs_witness :
    sweepGrid
        (fun c b => (RunSumMultiBatchModel (fun _ => Except.ok [1, 1, 1]) 0 2 0
          (NewQuerySet "q" "%d" [[10, 20, 30]]) c b).1) [1, 2] [1, 3]
      = ([1, 2].flatMap fun c => [1, 3].map fun b =>
          { Name := "q", Iterations := 3, Concurrency := c, BatchSize := b,
            Seconds := 2, ColumnCount := 0, Timestamp := 0 }) :=
  (sweep_grid_runs (fun _ => Except.ok [1, 1, 1])
    (NewQuerySet "q" "%d" [[10, 20, 30]]) 0 2 0 [1, 2] [1, 3]
    rfl rfl (by decide)).1

/-- Witness for C2 on the 3×2 grid `[[10, 20, 30], [1, 2]]`. -/
theorem querySet_enumerates_witness :
    (List.range (NewQuerySet "q" "%d %d" [[10, 20, 30], [1, 2]]).iterations).map
        (queryArgs (NewQuerySet "q" "%d %d" [[10, 20, 30], [1, 2]]))
      = ([[10, 20, 30], [1, 2]] : List (List Int)).sections ∧
    ([[10, 20, 30], [1, 2]] : List (List Int)).sections
      = [[10, 1], [20, 1], [30, 1], [10, 2], [20, 2], [30, 2]] := by
  refine ⟨(querySet_enumerates "q" "%d %d" [[10, 20, 30], [1, 2]]).2.1, ?_⟩
  decide

/-- C9: for every name the catalogue does not recognize, `getQuerySet`
returns the zero-value `QuerySet` — empty name and template, no argument
grids, no setup, no teardown, zero iterations — and running the whole
pipeline on it dispatches no batches and completes normally with a summary
reporting an iteration count of zero. -/
theorem unknown_name_noop (qname : String) (hq : qname ∉ catalogueNames)
    (exec : String → Except String (List Int))
    (concurrency batchSize nlo : Nat) (el ts : Int) :
    getQuerySet qname = zeroQuerySet ∧
    produceBatches (getQuerySet qname) batchSize = [] ∧
    RunSumMultiBatchModel exec nlo el ts (getQuerySet qname) concurrency batchSize
      = ({ Name := "", Iterations := 0, Concurrency := concurrency,
           BatchSize := batchSize, Seconds := el, ColumnCount := nlo,
           Timestamp := ts }, []) := by
  have hz : getQuerySet qname = zeroQuerySet := by
    simp only [catalogueNames, List.mem_cons, List.not_mem_nil, or_false,
      not_or] at hq
    obtain ⟨h01, h02, h03, h04, h05, h06, h07, h08, h09, h10, h11, h12, h13,
      h14, h15, h16, h17, h18, h19, h20, h21, h22, h23, h24, h25, h26⟩ := hq
    simp [getQuerySet, h01, h02, h03, h04, h05, h06, h07, h08, h09, h10, h11,
      h12, h13, h14, h15, h16, h17, h18, h19, h20, h21, h22, h23, h24, h25, h26]
  refine ⟨hz, ?_, ?_⟩
  · rw [hz]
    rfl
  · rw [hz]
    simp [RunSumMultiBatchModel, pipelineRecords, produceBatches, produceFromAux,
      collectLoop, zeroQuerySet]

/-- Witness for C9 at the unknown name `"nope"`. -/
theorem unknown_name_noop_witness :
    RunSumMultiBatchModel (fun _ => Except.ok []) 0 4 0 (getQuerySet "nope") 3 2
      = ({ Name := "", Iterations := 0, Concurrency := 3, BatchSize := 2,
           Seconds := 4, ColumnCount := 0, Timestamp := 0 }, []) :=
  (unknown_name_noop "nope" (by decide) (fun _ => Except.ok []) 3 2 0 4 0).2.2
